import Mathlib

/-!
Shallow embedding of `socceraction/spadl/kloppy.py` (the Kloppy
EventDataset → SPADL actions converter) and proofs about it.

The Python module classifies raw soccer events into SPADL actions:
per-event classification (`_parse_event` and the kind-specific
`_parse_*_event` mappers), end-location resolution
(`_get_end_location`), and pipeline assembly (`convert_to_actions`:
coordinate transform, record building, stable sort by
(game_id, period_id, time_seconds), non-action filtering, dense
action-id assignment).

Machine reals (coordinates, timestamps) are embedded as `ℚ`.
The external collaborators (`_add_dribbles` dribble synthesis and the
pandera schema validation, both outside this module per the spec) are
not part of the embedded pipeline, which stops at the action-id
assignment exactly as the cited code lines do.
-/

namespace SpadlKloppy

/-- A 2-d coordinate pair (kloppy `Point`). -/
structure Point where
  x : ℚ
  y : ℚ
deriving DecidableEq, Repr

/-- Kloppy `PassResult` enumeration. -/
inductive PassResult
  | complete
  | incomplete
  | out
  | offside
deriving DecidableEq, Repr

/-- Kloppy `ShotResult` enumeration. -/
inductive ShotResult
  | goal
  | off_target
  | post
  | blocked
  | saved
  | own_goal
deriving DecidableEq, Repr

/-- Kloppy `TakeOnResult` enumeration. -/
inductive TakeOnResult
  | complete
  | incomplete
  | out
deriving DecidableEq, Repr

/-- Kloppy `SetPieceType` qualifier values. -/
inductive SetPieceType
  | goal_kick
  | free_kick
  | throw_in
  | corner_kick
  | penalty
  | kick_off
deriving DecidableEq, Repr

/-- Kloppy `PassType` qualifier values. -/
inductive PassType
  | cross
  | hand_pass
  | head_pass
  | high_pass
  | launch
  | simple_pass
  | smart_pass
  | long_ball
  | through_ball
  | chipped_pass
deriving DecidableEq, Repr

/-- Kloppy `BodyPart` qualifier values. -/
inductive BodyPart
  | right_foot
  | left_foot
  | head
  | both_hands
  | chest
  | left_hand
  | right_hand
  | drop_kick
  | keeper_arm
  | other
  | no_touch
deriving DecidableEq, Repr

/-- The value carried by one kloppy qualifier object (`q.value`).
Python mixes members of the three enumerations in one list, so the
embedding wraps them in a sum type; membership tests such as
`SetPieceType.FREE_KICK in qualifiers` become `∈` on this type. -/
inductive QualifierVal
  | set_piece (t : SetPieceType)
  | pass_type (t : PassType)
  | body_part (t : BodyPart)
deriving DecidableEq, Repr

/-- Kloppy `EventType` enumeration (the kinds relevant to the module:
the six kinds keyed in `_parse_event`'s dispatch dict plus the
unmapped kinds named in the module's comments). -/
inductive EventType
  | generic
  | pass
  | shot
  | take_on
  | carry
  | recovery
  | foul_committed
  | substitution
  | card
  | player_on
  | player_off
  | ball_out
  | formation_change
  | clearance
  | miscontrol
  | duel
deriving DecidableEq, Repr

/-- Kind-specific payload of an event: the fields accessed by the
kind-specific kloppy event subclasses (`PassEvent.result`,
`PassEvent.receiver_coordinates`, `ShotEvent.result`,
`ShotEvent.result_coordinates`, `CarryEvent.end_coordinates`,
`TakeOnEvent.result`). Unmapped kinds carry no payload used by the
module. -/
inductive EventDetail
  | pass (result : Option PassResult) (receiver_coordinates : Option Point)
  | shot (result : Option ShotResult) (result_coordinates : Option Point)
  | take_on (result : Option TakeOnResult)
  | carry (end_coordinates : Option Point)
  | recovery
  | generic
  | foul_committed
  | substitution
  | card
  | player_on
  | player_off
  | ball_out
  | formation_change
  | clearance
  | miscontrol
  | duel
deriving DecidableEq, Repr

/-- One raw kloppy event, flattened to the fields the module reads:
`event_id`, `period.id`, `timestamp`, `team.team_id` (team optional),
`player.player_id` (player optional), `coordinates` (optional) and the
qualifier list (optional), plus the kind-specific payload. -/
structure Event where
  event_id : String
  period_id : ℤ
  timestamp : ℚ
  team_id : Option ℤ
  player_id : Option ℤ
  coordinates : Option Point
  qualifiers : Option (List QualifierVal)
  detail : EventDetail
deriving DecidableEq, Repr

/-- The kloppy `event.event_type` discriminator, determined by the
subclass of the event (its kind-specific payload). -/
def Event.event_type (e : Event) : EventType :=
  match e.detail with
  | .pass _ _ => .pass
  | .shot _ _ => .shot
  | .take_on _ => .take_on
  | .carry _ => .carry
  | .recovery => .recovery
  | .generic => .generic
  | .foul_committed => .foul_committed
  | .substitution => .substitution
  | .card => .card
  | .player_on => .player_on
  | .player_off => .player_off
  | .ball_out => .ball_out
  | .formation_change => .formation_change
  | .clearance => .clearance
  | .miscontrol => .miscontrol
  | .duel => .duel

/-- Pitch/coordinate metadata of the provider dataset: x/y extents and
whether the provider's vertical axis runs top-to-bottom. -/
structure PitchMeta where
  x_min : ℚ
  x_max : ℚ
  y_min : ℚ
  y_max : ℚ
  y_top_to_bottom : Bool
deriving DecidableEq, Repr

/-- A kloppy `EventDataset`, reduced to its event list and the
coordinate metadata consumed by the coordinate transform. -/
structure EventDataset where
  meta : PitchMeta
  events : List Event
deriving DecidableEq, Repr

/-- Modelled from the spec: the configured pitch length
(`spadlconfig.field_length`, external configuration module). -/
def field_length : ℚ := 105

/-- Modelled from the spec: the configured pitch width
(`spadlconfig.field_width`, external configuration module). -/
def field_width : ℚ := 68

/-- Modelled from the spec: the closed action-type vocabulary
(`spadlconfig.actiontypes`, external configuration): stable string
identifiers mapped to fixed ordinal codes by their list position. The
spec leaves the ordinal order external; the claims depend only on
membership and distinctness of the names, which hold for any
duplicate-free vocabulary containing the names used by the module. -/
def actiontypes : List String :=
  ["pass", "cross", "throw_in", "freekick_crossed", "freekick_short",
   "corner_crossed", "corner_short", "goalkick", "shot", "shot_freekick",
   "shot_penalty", "take_on", "dribble", "interception", "bad_touch",
   "foul", "non_action"]

/-- Modelled from the spec: the closed result vocabulary
(`spadlconfig.results`, external configuration). -/
def results : List String :=
  ["success", "fail", "offside", "own_goal"]

/-- Modelled from the spec: the closed body-part vocabulary
(`spadlconfig.bodyparts`, external configuration). -/
def bodyparts : List String :=
  ["foot", "head", "other"]

/-- Modelled from the spec: the coordinate normalizer (§4.1). The code
calls the external `dataset.transform(to_orientation=FIXED_HOME_AWAY,
to_coordinate_system=_SoccerActionCoordinateSystem(...))` from the
kloppy library (not part of this repository). Per the spec it
re-expresses each coordinate under the fixed convention (origin
bottom-left, vertical axis up, extents `field_length × field_width`),
changing only the interpretation/scale of coordinates — never the
event count, order, or any non-spatial field — and performs no
per-possession orientation flip. This is the pointwise affine rescale
of one point. -/
def transformPoint (m : PitchMeta) (p : Point) : Point :=
  { x := (p.x - m.x_min) / (m.x_max - m.x_min) * field_length,
    y :=
      if m.y_top_to_bottom then
        (1 - (p.y - m.y_min) / (m.y_max - m.y_min)) * field_width
      else
        (p.y - m.y_min) / (m.y_max - m.y_min) * field_width }

/-- Modelled from the spec: the coordinate normalizer applied to one
event — every spatial field is rescaled, all other fields kept. -/
def transformEvent (m : PitchMeta) (e : Event) : Event :=
  { e with
    coordinates := e.coordinates.map (transformPoint m),
    detail :=
      match e.detail with
      | .pass r rc => .pass r (rc.map (transformPoint m))
      | .shot r rc => .shot r (rc.map (transformPoint m))
      | .carry ec => .carry (ec.map (transformPoint m))
      | d => d }

/-- Modelled from the spec: the coordinate normalizer applied to the
whole dataset (`dataset.transform(...)`), eventwise. -/
def transformDataset (ds : EventDataset) : EventDataset :=
  { meta :=
      { x_min := 0, x_max := field_length, y_min := 0, y_max := field_width,
        y_top_to_bottom := false },
    events := ds.events.map (transformEvent ds.meta) }

/-- Embeds `_qualifiers`: the list of qualifier values of the event,
empty when the qualifier list is absent. -/
def _qualifiers (e : Event) : List QualifierVal :=
  e.qualifiers.getD []

/-- Embeds `_parse_event_as_non_action`. -/
def _parse_event_as_non_action : String × String × String :=
  ("non_action", "success", "foot")

/-- Embeds `_parse_pass_event` (qualifier list and pass result are the
two event fields the Python function reads). -/
def _parse_pass_event (qualifiers : List QualifierVal)
    (result : Option PassResult) : String × String × String :=
  let a :=
    if QualifierVal.set_piece .free_kick ∈ qualifiers then
      if QualifierVal.pass_type .chipped_pass ∈ qualifiers
          ∨ QualifierVal.pass_type .cross ∈ qualifiers
          ∨ QualifierVal.pass_type .high_pass ∈ qualifiers then
        "freekick_crossed"
      else
        "freekick_short"
    else if QualifierVal.set_piece .corner_kick ∈ qualifiers then
      if QualifierVal.pass_type .chipped_pass ∈ qualifiers
          ∨ QualifierVal.pass_type .cross ∈ qualifiers
          ∨ QualifierVal.pass_type .high_pass ∈ qualifiers then
        "corner_crossed"
      else
        "corner_short"
    else if QualifierVal.set_piece .goal_kick ∈ qualifiers then
      "goalkick"
    else if QualifierVal.set_piece .throw_in ∈ qualifiers then
      "throw_in"
    else if QualifierVal.pass_type .cross ∈ qualifiers then
      "cross"
    else
      "pass"
  let r :=
    if result = some .incomplete ∨ result = some .out then
      "fail"
    else if result = some .offside then
      "offside"
    else
      "success"
  let b :=
    if QualifierVal.body_part .head ∈ qualifiers then
      "head"
    else if QualifierVal.body_part .right_foot ∈ qualifiers
        ∨ QualifierVal.body_part .left_foot ∈ qualifiers then
      "foot"
    else if QualifierVal.body_part .chest ∈ qualifiers
        ∨ QualifierVal.body_part .other ∈ qualifiers then
      "other"
    else
      "foot"
  (a, r, b)

/-- Embeds `_parse_shot_event`; the own-goal branch of the Python code
reassigns the type variable `a`, embedded here by computing the final
(type, result) pair in one decision. -/
def _parse_shot_event (qualifiers : List QualifierVal)
    (result : Option ShotResult) : String × String × String :=
  let a0 :=
    if QualifierVal.set_piece .free_kick ∈ qualifiers then
      "shot_freekick"
    else if QualifierVal.set_piece .penalty ∈ qualifiers then
      "shot_penalty"
    else
      "shot"
  let ar : String × String :=
    if result = some .goal then
      (a0, "success")
    else if result = some .own_goal then
      ("bad_touch", "own_goal")
    else
      (a0, "fail")
  let b :=
    if QualifierVal.body_part .head ∈ qualifiers then
      "head"
    else if QualifierVal.body_part .right_foot ∈ qualifiers
        ∨ QualifierVal.body_part .left_foot ∈ qualifiers
        ∨ QualifierVal.body_part .drop_kick ∈ qualifiers then
      "foot"
    else
      "other"
  (ar.1, ar.2, b)

/-- Embeds `_parse_dribble_event` (take-on events; reads only the
result field). -/
def _parse_dribble_event (result : Option TakeOnResult) :
    String × String × String :=
  ("take_on", if result = some .complete then "success" else "fail", "foot")

/-- Embeds `_parse_carry_event` (reads no event field). -/
def _parse_carry_event : String × String × String :=
  ("dribble", "success", "foot")

/-- Embeds `_parse_interception_event` (reads no event field; the
result is hard-coded because kloppy exposes none). -/
def _parse_interception_event : String × String × String :=
  ("interception", "success", "foot")

/-- Embeds `_parse_foul_event`. This function exists in the module but
no entry of `_parse_event`'s dispatch dict refers to it (the
`EventType.FOUL_COMMITTED` line is commented out). -/
def _parse_foul_event : String × String × String :=
  ("foul", "success", "foot")

/-- Embeds the dispatch dict of `_parse_event` and its
`events.get(event.event_type, _parse_event_as_non_action)` default:
the six keyed kinds dispatch to their mappers, every other kind to the
non-action mapper. -/
def _parse_event_triple (e : Event) : String × String × String :=
  match e.detail with
  | .pass result _ => _parse_pass_event (_qualifiers e) result
  | .shot result _ => _parse_shot_event (_qualifiers e) result
  | .take_on result => _parse_dribble_event result
  | .carry _ => _parse_carry_event
  | .recovery => _parse_interception_event
  | .generic => _parse_event_as_non_action
  | _ => _parse_event_as_non_action

/-- Embeds the tail of `_parse_event`: the `(type, result, bodypart)`
names are turned into ordinal ids via `list.index` on the vocabulary
lists (`List.indexOf` here; every produced name is a member, see
`parse_type_mem` below, so the partiality of Python's `.index` never
fires). -/
def _parse_event (e : Event) : Nat × Nat × Nat :=
  let t := _parse_event_triple e
  (actiontypes.indexOf t.1, results.indexOf t.2.1, bodyparts.indexOf t.2.2)

/-- Embeds `_get_end_location`: the `if isinstance` chain followed by
the shared fallback on `event.coordinates`. -/
def _get_end_location (e : Event) : Option ℚ × Option ℚ :=
  let fallback : Option ℚ × Option ℚ :=
    match e.coordinates with
    | some p => (some p.x, some p.y)
    | none => (none, none)
  match e.detail with
  | .pass result rc =>
      if result = some PassResult.complete then
        match rc with
        | some p => (some p.x, some p.y)
        | none => fallback
      else fallback
  | .carry ec =>
      (match ec with
       | some p => (some p.x, some p.y)
       | none => fallback)
  | .shot _ rc =>
      (match rc with
       | some p => (some p.x, some p.y)
       | none => fallback)
  | _ => fallback

/-- One provisional SPADL action record, the dict built per event in
`convert_to_actions` (before the `action_id` column exists). -/
structure ActionRecord where
  game_id : Nat
  original_event_id : String
  period_id : ℤ
  time_seconds : ℚ
  team_id : Option ℤ
  player_id : Option ℤ
  start_x : Option ℚ
  start_y : Option ℚ
  end_x : Option ℚ
  end_y : Option ℚ
  type_id : Nat
  result_id : Nat
  bodypart_id : Nat
deriving DecidableEq, Repr

/-- Embeds the per-event record construction inside
`convert_to_actions`'s loop (`game_id=0` is hard-coded with a TODO in
the source). -/
def buildAction (e : Event) : ActionRecord :=
  let endloc := _get_end_location e
  let ids := _parse_event e
  { game_id := 0,
    original_event_id := e.event_id,
    period_id := e.period_id,
    time_seconds := e.timestamp,
    team_id := e.team_id,
    player_id := e.player_id,
    start_x := e.coordinates.map Point.x,
    start_y := e.coordinates.map Point.y,
    end_x := endloc.1,
    end_y := endloc.2,
    type_id := ids.1,
    result_id := ids.2.1,
    bodypart_id := ids.2.2 }

/-- The sort key used by
`sort_values(["game_id", "period_id", "time_seconds"])`. -/
def akey (r : ActionRecord) : Nat × ℤ × ℚ :=
  (r.game_id, r.period_id, r.time_seconds)

/-- Lexicographic "at most" on the sort key: the order by which pandas
sorts the rows. -/
def keyLE (a b : ActionRecord) : Prop :=
  a.game_id < b.game_id
    ∨ a.game_id = b.game_id
      ∧ (a.period_id < b.period_id
        ∨ a.period_id = b.period_id ∧ a.time_seconds ≤ b.time_seconds)

instance : DecidableRel keyLE := fun a b => by
  unfold keyLE; infer_instance

theorem keyLE_of_akey_eq {a b : ActionRecord} (h : akey a = akey b) :
    keyLE a b := by
  unfold akey at h
  rcases Prod.mk.injEq .. ▸ h with ⟨h1, h23⟩
  rcases Prod.mk.injEq .. ▸ h23 with ⟨h2, h3⟩
  exact Or.inr ⟨h1, Or.inr ⟨h2, le_of_eq h3⟩⟩

theorem akey_ne_of_not_keyLE {a b : ActionRecord} (h : ¬ keyLE a b) :
    akey b ≠ akey a := fun he =>
  h (keyLE_of_akey_eq he.symm)

instance : IsTotal ActionRecord keyLE := by
  constructor
  intro a b
  unfold keyLE
  rcases Nat.lt_trichotomy a.game_id b.game_id with h1 | h1 | h1
  · exact Or.inl (Or.inl h1)
  · rcases Int.lt_trichotomy a.period_id b.period_id with h2 | h2 | h2
    · exact Or.inl (Or.inr ⟨h1, Or.inl h2⟩)
    · rcases le_total a.time_seconds b.time_seconds with h3 | h3
      · exact Or.inl (Or.inr ⟨h1, Or.inr ⟨h2, h3⟩⟩)
      · exact Or.inr (Or.inr ⟨h1.symm, Or.inr ⟨h2.symm, h3⟩⟩)
    · exact Or.inr (Or.inr ⟨h1.symm, Or.inl h2⟩)
  · exact Or.inr (Or.inl h1)

instance : IsTrans ActionRecord keyLE := by
  constructor
  intro a b c hab hbc
  unfold keyLE at *
  rcases hab with h1 | ⟨e1, hab2⟩
  · rcases hbc with h2 | ⟨e2, _⟩
    · exact Or.inl (lt_trans h1 h2)
    · exact Or.inl (e2 ▸ h1)
  · rcases hbc with h2 | ⟨e2, hbc2⟩
    · exact Or.inl (e1 ▸ h2)
    · refine Or.inr ⟨e1.trans e2, ?_⟩
      rcases hab2 with h3 | ⟨f1, hab3⟩
      · rcases hbc2 with h4 | ⟨f2, _⟩
        · exact Or.inl (lt_trans h3 h4)
        · exact Or.inl (f2 ▸ h3)
      · rcases hbc2 with h4 | ⟨f2, hbc3⟩
        · exact Or.inl (f1 ▸ h4)
        · exact Or.inr ⟨f1.trans f2, le_trans hab3 hbc3⟩

/-- Embeds the `sort_values(["game_id", "period_id", "time_seconds"])`
step. With a multi-column key pandas sorts via `numpy.lexsort`, a
stable lexicographic sort; any stable sort by the same total preorder
produces the same list, so the step is embedded as the stable
insertion sort by `keyLE`. -/
def sortActions (l : List ActionRecord) : List ActionRecord :=
  List.insertionSort keyLE l

/-- One row of the final table: a record plus its `action_id`. -/
structure Action where
  core : ActionRecord
  action_id : Nat
deriving DecidableEq, Repr

/-- Embeds `actions["action_id"] = range(len(actions))`: rows are
numbered consecutively from `i` in row order. -/
def assignIds : Nat → List ActionRecord → List Action
  | _, [] => []
  | i, r :: rs => ⟨r, i⟩ :: assignIds (i + 1) rs

/-- The provisional record list: one record per event of the
coordinate-transformed dataset, in dataset order. -/
def provisionalActions (ds : EventDataset) : List ActionRecord :=
  (transformDataset ds).events.map buildAction

/-- The record list after the sort step. -/
def sortedActions (ds : EventDataset) : List ActionRecord :=
  sortActions (provisionalActions ds)

/-- The record list after the non-action filter
`actions[actions.type_id != spadlconfig.actiontypes.index("non_action")]`. -/
def filteredActions (ds : EventDataset) : List ActionRecord :=
  (sortedActions ds).filter
    (fun r => r.type_id ≠ actiontypes.indexOf "non_action")

/-- The assembled table at the point where `action_id` has been
assigned (the last step of the embedded core; the subsequent
`_add_dribbles` and schema validation are external collaborators). -/
def finalTable (ds : EventDataset) : List Action :=
  assignIds 0 (filteredActions ds)

/-- The errors the conversion entry point can produce before the
final schema-validation boundary: the documented missing-dependency
`ImportError` of lines 64-65, and the `KeyError` that
`sort_values(["game_id", "period_id", "time_seconds"])` raises when
the frame built from an empty record list has no columns. -/
inductive ConvError
  | importError
  | keyError (column : String)
deriving DecidableEq, Repr

/-- The module-level `_has_kloppy` flag, in the only module state in
which `convert_to_actions` exists. When the `from kloppy.domain import
(...)` fails, the module body itself raises `NameError` before the
entry point is defined — at the eagerly evaluated `dataset:
EventDataset` parameter annotation (line 42) and at the class
statement `_SoccerActionCoordinateSystem(CoordinateSystem)`
(line 100) — so in every interpreter state where the entry point is
callable the import succeeded and the flag is `True`. -/
def _has_kloppy : Bool := true

/-- Embeds `convert_to_actions` in the reachable module state: the
lines 64-65 `_has_kloppy` guard (dead, since `_has_kloppy = true`
whenever the function exists), then the pipeline. A zero-event dataset
builds an empty record list, `pd.DataFrame([])` is a column-less
frame, and `sort_values(["game_id", ...])` (line 90) raises
`KeyError` on its first key before the validation boundary; otherwise
the pipeline is total and succeeds. The `home_team_id` parameter is
accepted, as in the source, and appears nowhere in the body. -/
def convert_to_actions (dataset : EventDataset)
    (home_team_id : ℤ) : Except ConvError (List Action) :=
  if !_has_kloppy then
    .error .importError
  else if provisionalActions dataset = [] then
    .error (.keyError "game_id")
  else
    .ok (finalTable dataset)

/-! ### Infrastructure lemmas -/

theorem filter_orderedInsert_of_akey_eq (k : Nat × ℤ × ℚ)
    (x : ActionRecord) (l : List ActionRecord) (hx : akey x = k) :
    (List.orderedInsert keyLE x l).filter (fun r => akey r = k)
      = x :: l.filter (fun r => akey r = k) := by
  induction l with
  | nil => simp [List.orderedInsert, hx]
  | cons y ys ih =>
      by_cases h : keyLE x y
      · simp [List.orderedInsert, h, hx]
      · have hyk : akey y ≠ k := hx ▸ akey_ne_of_not_keyLE h
        simp [List.orderedInsert, h, hyk, ih]

theorem filter_orderedInsert_of_akey_ne (k : Nat × ℤ × ℚ)
    (x : ActionRecord) (l : List ActionRecord) (hx : akey x ≠ k) :
    (List.orderedInsert keyLE x l).filter (fun r => akey r = k)
      = l.filter (fun r => akey r = k) := by
  induction l with
  | nil => simp [List.orderedInsert, hx]
  | cons y ys ih =>
      by_cases h : keyLE x y
      · simp [List.orderedInsert, h, hx]
      · by_cases hyk : akey y = k
        · simp [List.orderedInsert, h, hyk, ih]
        · simp [List.orderedInsert, h, hyk, ih]

theorem filter_sortActions (k : Nat × ℤ × ℚ) (l : List ActionRecord) :
    (sortActions l).filter (fun r => akey r = k)
      = l.filter (fun r => akey r = k) := by
  induction l with
  | nil => rfl
  | cons x xs ih =>
      unfold sortActions List.insertionSort
      by_cases hx : akey x = k
      · rw [filter_orderedInsert_of_akey_eq k x _ hx]
        unfold sortActions at ih
        simp [ih, hx]
      · rw [filter_orderedInsert_of_akey_ne k x _ hx]
        unfold sortActions at ih
        simp [ih, hx]

theorem sorted_sortActions (l : List ActionRecord) :
    List.Sorted keyLE (sortActions l) :=
  List.sorted_insertionSort keyLE l

theorem map_action_id_assignIds (l : List ActionRecord) :
    ∀ i, (assignIds i l).map Action.action_id = List.range' i l.length := by
  induction l with
  | nil => intro i; rfl
  | cons r rs ih =>
      intro i
      simp [assignIds, List.range'_succ, ih]

theorem length_assignIds (l : List ActionRecord) :
    ∀ i, (assignIds i l).length = l.length := by
  induction l with
  | nil => intro i; rfl
  | cons r rs ih => intro i; simp [assignIds, ih]

theorem core_mem_of_mem_assignIds {l : List ActionRecord} {a : Action} :
    ∀ {i}, a ∈ assignIds i l → a.core ∈ l := by
  induction l with
  | nil => intro i h; cases h
  | cons r rs ih =>
      intro i h
      rcases List.mem_cons.mp h with h | h
      · subst h; exact List.mem_cons_self _ _
      · exact List.mem_cons_of_mem _ (ih h)

/-- The six event kinds keyed in `_parse_event`'s dispatch dict. -/
def dispatchKinds : List EventType :=
  [.generic, .pass, .shot, .take_on, .carry, .recovery]

theorem parse_triple_of_unmapped (e : Event)
    (h : e.event_type ∉ dispatchKinds) :
    _parse_event_triple e = ("non_action", "success", "foot") := by
  cases hd : e.detail <;>
    simp_all [Event.event_type, dispatchKinds, _parse_event_triple, hd,
      _parse_event_as_non_action]

theorem parse_type_ne_foul (e : Event) :
    (_parse_event_triple e).1 ≠ "foul" := by
  cases hd : e.detail <;>
    simp only [_parse_event_triple, hd, _parse_pass_event, _parse_shot_event,
      _parse_dribble_event, _parse_carry_event, _parse_interception_event,
      _parse_event_as_non_action] <;>
    (try split_ifs) <;> decide

theorem mem_filteredActions_type_id {ds : EventDataset} {r : ActionRecord}
    (h : r ∈ filteredActions ds) :
    r.type_id ≠ actiontypes.indexOf "non_action" := by
  have := List.of_mem_filter h
  simpa using this

theorem mem_sorted_iff_mem_provisional {ds : EventDataset}
    {r : ActionRecord} :
    r ∈ sortedActions ds ↔ r ∈ provisionalActions ds :=
  (List.perm_insertionSort keyLE (provisionalActions ds)).mem_iff

theorem mem_filtered_exists_event {ds : EventDataset} {r : ActionRecord}
    (h : r ∈ filteredActions ds) :
    ∃ e ∈ (transformDataset ds).events, r = buildAction e := by
  have h1 : r ∈ sortedActions ds := List.mem_of_mem_filter h
  have h2 : r ∈ provisionalActions ds :=
    mem_sorted_iff_mem_provisional.mp h1
  rcases List.mem_map.mp h2 with ⟨e, he, hr⟩
  exact ⟨e, he, hr.symm⟩

theorem buildAction_type_id (e : Event) :
    (buildAction e).type_id = actiontypes.indexOf (_parse_event_triple e).1 :=
  rfl

/-- Every type name the classifier can produce is a member of the
action-type vocabulary. -/
theorem parse_type_mem_actiontypes (e : Event) :
    (_parse_event_triple e).1 ∈ actiontypes := by
  cases hd : e.detail <;>
    simp only [_parse_event_triple, hd, _parse_pass_event, _parse_shot_event,
      _parse_dribble_event, _parse_carry_event, _parse_interception_event,
      _parse_event_as_non_action] <;>
    (try split_ifs) <;> decide

/-! ### Claim theorems -/

/-- The crossed/short sub-condition of the pass mapper: any of the
chipped, cross, or high-pass tags is present. -/
def crossedSub (qs : List QualifierVal) : Prop :=
  QualifierVal.pass_type .chipped_pass ∈ qs
    ∨ QualifierVal.pass_type .cross ∈ qs
    ∨ QualifierVal.pass_type .high_pass ∈ qs

instance (qs : List QualifierVal) : Decidable (crossedSub qs) := by
  unfold crossedSub; infer_instance

/-- C1: for every pass event the action type is decided by a
top-to-bottom first-match-wins precedence over the qualifier tags:
free-kick tag → freekick-crossed when the chipped/cross/high-pass
sub-condition holds, freekick-short otherwise; else corner-kick tag →
corner-crossed/corner-short by the same sub-rule; else goal-kick tag →
goal-kick; else throw-in tag → throw-in; else cross tag → cross; else
generic pass. In particular {FREE_KICK, CROSS} → freekick-crossed and
{CORNER_KICK} → corner-short. -/
theorem pass_type_precedence (qs : List QualifierVal)
    (result : Option PassResult) :
    (QualifierVal.set_piece .free_kick ∈ qs ∧ crossedSub qs →
        (_parse_pass_event qs result).1 = "freekick_crossed")
  ∧ (QualifierVal.set_piece .free_kick ∈ qs ∧ ¬ crossedSub qs →
        (_parse_pass_event qs result).1 = "freekick_short")
  ∧ (QualifierVal.set_piece .free_kick ∉ qs
      ∧ QualifierVal.set_piece .corner_kick ∈ qs ∧ crossedSub qs →
        (_parse_pass_event qs result).1 = "corner_crossed")
  ∧ (QualifierVal.set_piece .free_kick ∉ qs
      ∧ QualifierVal.set_piece .corner_kick ∈ qs ∧ ¬ crossedSub qs →
        (_parse_pass_event qs result).1 = "corner_short")
  ∧ (QualifierVal.set_piece .free_kick ∉ qs
      ∧ QualifierVal.set_piece .corner_kick ∉ qs
      ∧ QualifierVal.set_piece .goal_kick ∈ qs →
        (_parse_pass_event qs result).1 = "goalkick")
  ∧ (QualifierVal.set_piece .free_kick ∉ qs
      ∧ QualifierVal.set_piece .corner_kick ∉ qs
      ∧ QualifierVal.set_piece .goal_kick ∉ qs
      ∧ QualifierVal.set_piece .throw_in ∈ qs →
        (_parse_pass_event qs result).1 = "throw_in")
  ∧ (QualifierVal.set_piece .free_kick ∉ qs
      ∧ QualifierVal.set_piece .corner_kick ∉ qs
      ∧ QualifierVal.set_piece .goal_kick ∉ qs
      ∧ QualifierVal.set_piece .throw_in ∉ qs
      ∧ QualifierVal.pass_type .cross ∈ qs →
        (_parse_pass_event qs result).1 = "cross")
  ∧ (QualifierVal.set_piece .free_kick ∉ qs
      ∧ QualifierVal.set_piece .corner_kick ∉ qs
      ∧ QualifierVal.set_piece .goal_kick ∉ qs
      ∧ QualifierVal.set_piece .throw_in ∉ qs
      ∧ QualifierVal.pass_type .cross ∉ qs →
        (_parse_pass_event qs result).1 = "pass")
  ∧ (_parse_pass_event
      [QualifierVal.set_piece .free_kick, QualifierVal.pass_type .cross]
      result).1 = "freekick_crossed"
  ∧ (_parse_pass_event [QualifierVal.set_piece .corner_kick] result).1
      = "corner_short" := by
  have hfst : ∀ (qs : List QualifierVal) (result : Option PassResult),
      (_parse_pass_event qs result).1 =
        (if QualifierVal.set_piece .free_kick ∈ qs then
          if QualifierVal.pass_type .chipped_pass ∈ qs
              ∨ QualifierVal.pass_type .cross ∈ qs
              ∨ QualifierVal.pass_type .high_pass ∈ qs then
            "freekick_crossed"
          else
            "freekick_short"
        else if QualifierVal.set_piece .corner_kick ∈ qs then
          if QualifierVal.pass_type .chipped_pass ∈ qs
              ∨ QualifierVal.pass_type .cross ∈ qs
              ∨ QualifierVal.pass_type .high_pass ∈ qs then
            "corner_crossed"
          else
            "corner_short"
        else if QualifierVal.set_piece .goal_kick ∈ qs then
          "goalkick"
        else if QualifierVal.set_piece .throw_in ∈ qs then
          "throw_in"
        else if QualifierVal.pass_type .cross ∈ qs then
          "cross"
        else
          "pass") := fun _ _ => rfl
  refine ⟨?_, ?_, ?_, ?_, ?_, ?_, ?_, ?_, ?_, ?_⟩
  · rintro ⟨h1, h2⟩; unfold crossedSub at h2; rw [hfst]; simp [h1, h2]
  · rintro ⟨h1, h2⟩; unfold crossedSub at h2; rw [hfst]; simp [h1, h2]
  · rintro ⟨h1, h2, h3⟩; unfold crossedSub at h3; rw [hfst]
    simp [h1, h2, h3]
  · rintro ⟨h1, h2, h3⟩; unfold crossedSub at h3; rw [hfst]
    simp [h1, h2, h3]
  · rintro ⟨h1, h2, h3⟩; rw [hfst]; simp [h1, h2, h3]
  · rintro ⟨h1, h2, h3, h4⟩; rw [hfst]; simp [h1, h2, h3, h4]
  · rintro ⟨h1, h2, h3, h4, h5⟩; rw [hfst]; simp [h1, h2, h3, h4, h5]
  · rintro ⟨h1, h2, h3, h4, h5⟩; rw [hfst]; simp [h1, h2, h3, h4, h5]
  · rw [hfst]; simp
  · rw [hfst]; simp

/-- Witness for C1 at qualifier set {FREE_KICK, CROSS}: the free-kick
branch wins and the crossed sub-condition fires. -/
theorem pass_type_precedence_witness :
    (_parse_pass_event
      [QualifierVal.set_piece .free_kick, QualifierVal.pass_type .cross]
      none).1 = "freekick_crossed" :=
  (pass_type_precedence
    [QualifierVal.set_piece .free_kick, QualifierVal.pass_type .cross]
    none).1 ⟨by decide, by decide⟩

/-- The tag-determined shot type: free-kick tag → shot-freekick, else
penalty tag → shot-penalty, else generic shot. -/
def shotTagType (qs : List QualifierVal) : String :=
  if QualifierVal.set_piece .free_kick ∈ qs then
    "shot_freekick"
  else if QualifierVal.set_piece .penalty ∈ qs then
    "shot_penalty"
  else
    "shot"

/-- C2: for every shot event, a goal outcome yields result success
with the tag-determined type; an own-goal outcome overrides the type
to bad-touch and the result to own-goal regardless of the free-kick or
penalty tags (the same single decision fixes both fields); any other
outcome yields result fail with the tag-determined type. -/
theorem shot_result_override (qs : List QualifierVal)
    (result : Option ShotResult) :
    (result = some .goal →
        (_parse_shot_event qs result).2.1 = "success"
          ∧ (_parse_shot_event qs result).1 = shotTagType qs)
  ∧ (result = some .own_goal →
        (_parse_shot_event qs result).1 = "bad_touch"
          ∧ (_parse_shot_event qs result).2.1 = "own_goal")
  ∧ (result ≠ some .goal → result ≠ some .own_goal →
        (_parse_shot_event qs result).2.1 = "fail"
          ∧ (_parse_shot_event qs result).1 = shotTagType qs) := by
  unfold _parse_shot_event shotTagType
  refine ⟨?_, ?_, ?_⟩
  · intro h; subst h; simp
  · intro h; subst h; simp
  · intro h1 h2; split_ifs <;> simp_all

/-- Witness for C2 at an own-goal shot carrying the FREE_KICK tag: the
type is overridden to bad-touch and the result to own-goal despite the
set-piece tag. -/
theorem shot_result_override_witness :
    (_parse_shot_event [QualifierVal.set_piece .free_kick]
        (some .own_goal)).1 = "bad_touch"
      ∧ (_parse_shot_event [QualifierVal.set_piece .free_kick]
        (some .own_goal)).2.1 = "own_goal" :=
  (shot_result_override [QualifierVal.set_piece .free_kick]
    (some .own_goal)).2.1 rfl

/-- Holds when no kind-specific end-location rule of
`_get_end_location` applies to the event: not a completed pass with
known receiver coordinates, not a carry with a known end location, not
a shot with a known outcome location. -/
def noEndRule (e : Event) : Prop :=
  (∀ r rc, e.detail = .pass r rc → ¬ (r = some .complete ∧ rc ≠ none))
    ∧ (∀ ec, e.detail = .carry ec → ec = none)
    ∧ (∀ r rc, e.detail = .shot r rc → rc = none)

/-- C4: the end location is derived by first-applicable-rule-wins
precedence: (1) completed pass with known receiver coordinates →
receiver coordinates; (2) carry with known end location → that
location; (3) shot with known outcome location → that location;
(4) otherwise with known start coordinates → end = start;
(5) otherwise → both end coordinates null. -/
theorem end_location_precedence (e : Event) :
    (∀ r p, e.detail = .pass r (some p) → r = some .complete →
        _get_end_location e = (some p.x, some p.y))
  ∧ (∀ p, e.detail = .carry (some p) →
        _get_end_location e = (some p.x, some p.y))
  ∧ (∀ r p, e.detail = .shot r (some p) →
        _get_end_location e = (some p.x, some p.y))
  ∧ (noEndRule e → ∀ p, e.coordinates = some p →
        _get_end_location e = (some p.x, some p.y))
  ∧ (noEndRule e → e.coordinates = none →
        _get_end_location e = (none, none)) := by
  refine ⟨?_, ?_, ?_, ?_, ?_⟩
  · intro r p hd hr
    simp [_get_end_location, hd, hr]
  · intro p hd
    simp [_get_end_location, hd]
  · intro r p hd
    simp [_get_end_location, hd]
  · intro hno p hc
    rcases hno with ⟨hpass, hcarry, hshot⟩
    cases hd : e.detail <;>
      simp only [_get_end_location, hd, hc]
    case pass r rc =>
      have := hpass r rc hd
      by_cases hr : r = some PassResult.complete
      · have : rc = none := by
          by_contra hne
          exact this ⟨hr, hne⟩
        simp [hr, this]
      · simp [hr]
    case shot r rc =>
      have := hshot r rc hd
      subst this
      simp
    case carry ec =>
      have := hcarry ec hd
      subst this
      simp
  · intro hno hc
    rcases hno with ⟨hpass, hcarry, hshot⟩
    cases hd : e.detail <;>
      simp only [_get_end_location, hd, hc]
    case pass r rc =>
      have := hpass r rc hd
      by_cases hr : r = some PassResult.complete
      · have : rc = none := by
          by_contra hne
          exact this ⟨hr, hne⟩
        simp [hr, this]
      · simp [hr]
    case shot r rc =>
      have := hshot r rc hd
      subst this
      simp
    case carry ec =>
      have := hcarry ec hd
      subst this
      simp

/-- Witness for C4 at a completed pass with receiver coordinates
(7, 9): the end location is the receiver's location. -/
theorem end_location_precedence_witness :
    _get_end_location
        { event_id := "e1", period_id := 1, timestamp := 10,
          team_id := some 4, player_id := some 5,
          coordinates := some ⟨1, 2⟩, qualifiers := none,
          detail := .pass (some .complete) (some ⟨7, 9⟩) }
      = (some 7, some 9) :=
  (end_location_precedence
    { event_id := "e1", period_id := 1, timestamp := 10,
      team_id := some 4, player_id := some 5,
      coordinates := some ⟨1, 2⟩, qualifiers := none,
      detail := .pass (some .complete) (some ⟨7, 9⟩) }).1
    (some .complete) ⟨7, 9⟩ rfl rfl

/-- A concrete pass event used by witnesses. -/
def sampleEvent : Event :=
  { event_id := "p1", period_id := 1, timestamp := 30,
    team_id := some 11, player_id := some 7,
    coordinates := some ⟨52, 34⟩, qualifiers := none,
    detail := .pass none none }

/-- A concrete foul-committed event used by witnesses. -/
def sampleFoulEvent : Event :=
  { event_id := "f1", period_id := 1, timestamp := 40,
    team_id := some 11, player_id := some 9,
    coordinates := some ⟨20, 30⟩, qualifiers := none,
    detail := .foul_committed }

/-- A concrete dataset used by witnesses: identity-scale pitch metadata
and one pass event plus one foul event. -/
def sampleDS : EventDataset :=
  { meta := { x_min := 0, x_max := 105, y_min := 0, y_max := 68,
              y_top_to_bottom := false },
    events := [sampleEvent, sampleFoulEvent] }

/-- C3: classification is total by construction (the embedding of
`_parse_event` is a total function with the default arm of the
dispatch); for every event whose kind has no entry in the dispatch
dict the classifier returns the placeholder triple
(non-action, success, foot), and the assembled table (after the
non-action filter and id assignment) contains no record derived from
such an event. -/
theorem unmapped_kind_placeholder (ds : EventDataset) (e : Event)
    (h : e.event_type ∉ dispatchKinds) :
    _parse_event_triple e = ("non_action", "success", "foot")
      ∧ ∀ a ∈ finalTable ds, a.core ≠ buildAction e := by
  have ht := parse_triple_of_unmapped e h
  refine ⟨ht, ?_⟩
  intro a ha hEq
  have hmem : a.core ∈ filteredActions ds := core_mem_of_mem_assignIds ha
  have hne := mem_filteredActions_type_id hmem
  apply hne
  rw [hEq, buildAction_type_id, ht]

/-- Witness for C3 at a foul-committed event (not keyed in the
dispatch dict) and the sample dataset. -/
theorem unmapped_kind_placeholder_witness :
    _parse_event_triple sampleFoulEvent = ("non_action", "success", "foot")
      ∧ ∀ a ∈ finalTable sampleDS, a.core ≠ buildAction sampleFoulEvent :=
  unmapped_kind_placeholder sampleDS sampleFoulEvent (by decide)

/-- C5: after the sort, the non-action filter, and the identifier
reassignment, the action identifiers of the assembled table form the
dense zero-based strictly increasing sequence 0..n−1 in final row
order. -/
theorem action_ids_dense (ds : EventDataset)
    (h : finalTable ds ≠ []) :
    (finalTable ds).map Action.action_id
      = List.range (finalTable ds).length := by
  unfold finalTable
  rw [map_action_id_assignIds, length_assignIds, List.range_eq_range']

/-- Witness for C5 at the sample dataset, whose output table is
non-empty (it retains the pass event). -/
theorem action_ids_dense_witness :
    (finalTable sampleDS).map Action.action_id
      = List.range (finalTable sampleDS).length :=
  action_ids_dense sampleDS (by decide)

/-- C6: the assembled table is sorted by the key
(game_id, period_id, time_seconds) and the sort is stable: restricted
to any fixed key value, the sorted record list equals the provisional
(input-ordered) record list, so events with identical keys keep their
relative input order. -/
theorem sort_stable_by_key (ds : EventDataset) (k : Nat × ℤ × ℚ) :
    List.Sorted keyLE (sortedActions ds)
      ∧ (sortedActions ds).filter (fun r => akey r = k)
          = (provisionalActions ds).filter (fun r => akey r = k) :=
  ⟨sorted_sortActions _, filter_sortActions k _⟩

/-- C7 fails on the code: (1) the conversion entry point exists only
in module states where the kloppy import succeeded (`_has_kloppy =
true`; when the import fails the module body raises `NameError` at
the line-42 annotation and line-100 class base before the entry point
is defined), and in that state the entry point never produces the
documented missing-dependency error — lines 64-65 are dead code,
contradicting the docstring "Raises ImportError: If the Kloppy
package is not installed"; (2) with kloppy installed, every
zero-event dataset makes the sort step raise `KeyError("game_id")`
before the schema-validation boundary, a second pre-validation error
kind. Every run either raises that key error or succeeds; the
missing-dependency error of the claim is never produced. -/
theorem availability_contract_code_bug :
    _has_kloppy = true
      ∧ (∀ m h, convert_to_actions { meta := m, events := [] } h
            = .error (.keyError "game_id"))
      ∧ (∀ ds h, convert_to_actions ds h = .error (.keyError "game_id")
            ∨ (convert_to_actions ds h).isOk = true) := by
  refine ⟨rfl, fun m h => rfl, fun ds h => ?_⟩
  by_cases he : provisionalActions ds = []
  · exact Or.inl (by simp [convert_to_actions, _has_kloppy, he])
  · exact Or.inr (by
      simp [convert_to_actions, _has_kloppy, he, Except.isOk, Except.toBool])

/-- C8: the home-team identifier parameter does not influence the
output — the entry point never reads it, so two runs differing only in
that argument return identical results (including the error cases). -/
theorem home_team_id_no_influence (ds : EventDataset)
    (h1 h2 : ℤ) :
    convert_to_actions ds h1 = convert_to_actions ds h2 := rfl

/-- C9: every assembled record has `game_id` hard-coded to 0, both in
the provisional record list and in the final table; consequently the
match-identifier component of the sort key is constant across any two
rows and never distinguishes them. -/
theorem game_id_always_zero (ds : EventDataset) :
    (∀ r ∈ provisionalActions ds, r.game_id = 0)
      ∧ (∀ a ∈ finalTable ds, a.core.game_id = 0)
      ∧ ∀ r ∈ provisionalActions ds, ∀ s ∈ provisionalActions ds,
          r.game_id = s.game_id := by
  have hprov : ∀ r ∈ provisionalActions ds, r.game_id = 0 := by
    intro r hr
    rcases List.mem_map.mp hr with ⟨e, _, he⟩
    rw [← he]; rfl
  refine ⟨hprov, ?_, ?_⟩
  · intro a ha
    have h1 : a.core ∈ filteredActions ds := core_mem_of_mem_assignIds ha
    have h2 : a.core ∈ sortedActions ds := List.mem_of_mem_filter h1
    exact hprov _ (mem_sorted_iff_mem_provisional.mp h2)
  · intro r hr s hs
    rw [hprov r hr, hprov s hs]

/-- Witness for C9 at the sample dataset and its first provisional
record. -/
theorem game_id_always_zero_witness :
    (buildAction (transformEvent sampleDS.meta sampleEvent)).game_id = 0 :=
  (game_id_always_zero sampleDS).1 _
    (by simp [provisionalActions, transformDataset, sampleDS])

/-- C10: the foul mapper `_parse_foul_event` exists and returns
(foul, success, foot), but foul-committed events are not keyed in the
dispatch dict, so they route to the default mapper and classify as the
placeholder triple; consequently no record of type foul ever appears
in the assembled table, for any dataset. -/
theorem foul_mapper_unreachable (ds : EventDataset) (e : Event) :
    _parse_foul_event = ("foul", "success", "foot")
      ∧ (e.detail = .foul_committed →
          _parse_event_triple e = ("non_action", "success", "foot"))
      ∧ ∀ a ∈ finalTable ds, a.core.type_id ≠ actiontypes.indexOf "foul" := by
  refine ⟨rfl, ?_, ?_⟩
  · intro hd
    simp [_parse_event_triple, hd, _parse_event_as_non_action]
  · intro a ha
    have h1 : a.core ∈ filteredActions ds := core_mem_of_mem_assignIds ha
    rcases mem_filtered_exists_event h1 with ⟨ev, _, hEq⟩
    rw [hEq, buildAction_type_id]
    intro hidx
    have hfoul : "foul" ∈ actiontypes := by decide
    have :=
      (List.indexOf_inj (parse_type_mem_actiontypes ev) hfoul).mp hidx
    exact parse_type_ne_foul ev this

/-- Witness for C10 at the sample dataset and its foul event: the
dispatch classifies the foul event as the placeholder, and the first
table row is not a foul. -/
theorem foul_mapper_unreachable_witness :
    _parse_event_triple sampleFoulEvent = ("non_action", "success", "foot")
      ∧ ∀ a ∈ finalTable sampleDS,
          a.core.type_id ≠ actiontypes.indexOf "foul" :=
  ⟨(foul_mapper_unreachable sampleDS sampleFoulEvent).2.1 rfl,
   (foul_mapper_unreachable sampleDS sampleFoulEvent).2.2⟩

end SpadlKloppy
